import Mathlib

/-
Shallow embedding of src/anomaly_detector.py
(huss2342/Real-Time-Anomaly-Detection-in-Data-Streams).

Python floats are modelled as exact reals; Python ints as integers
(window_size) and naturals (count).  A detect or fit call that raises in
Python (IndexError from window.pop(0) on an empty list, StatisticsError
from statistics.mean on an empty list or statistics.stdev on fewer than
two data points) is modelled by an Option result that is none, paired
with the state as mutated up to the point of the raise.
-/

namespace AnomalyDetection

/-- Exact value of Python statistics.mean on a nonempty list (on an empty
list statistics.mean raises; callers guard for that case). -/
noncomputable def listMean (xs : List ℝ) : ℝ := xs.sum / xs.length

/-- Exact value of the sample variance used by Python statistics.stdev
(denominator length - 1); stdev itself is its square root and raises for
fewer than two data points (callers guard for that case). -/
noncomputable def listSampleVar (xs : List ℝ) : ℝ :=
  ((xs.map (fun x => (x - listMean xs) ^ 2)).sum) / (xs.length - 1)

/-- Start index of the Python slice data[i:] (negative indices count from
the end, out-of-range indices are clamped). -/
def pySliceStart (i : ℤ) (n : ℕ) : ℕ :=
  (if i < 0 then max 0 ((n : ℤ) + i) else min (n : ℤ) i).toNat

/-- The Python slice data[i:]. -/
def pySliceFrom (i : ℤ) (xs : List ℝ) : List ℝ := xs.drop (pySliceStart i xs.length)

/-- State of RollingAverageDetector (src/anomaly_detector.py lines 64-90). -/
structure RollingAverageDetector where
  window_size : ℤ
  threshold_std : ℝ
  window : List ℝ
  mean : ℝ
  std : ℝ

/-- RollingAverageDetector.__init__ (lines 65-70): plain field assignment,
no validation of any argument. -/
def RollingAverageDetector.init (ws : ℤ) (t : ℝ) : RollingAverageDetector :=
  { window_size := ws, threshold_std := t, window := [], mean := 0, std := 0 }

/-- Value assigned to self.std by RollingAverageDetector._update_stats
(line 90): statistics.stdev(window) when the window has more than one
element, else 0. -/
noncomputable def ftStd (xs : List ℝ) : ℝ :=
  if 1 < xs.length then Real.sqrt (listSampleVar xs) else 0

/-- RollingAverageDetector._update_stats (lines 88-90), for a nonempty
window (statistics.mean raises on an empty one; both call sites inside
detect pass a window that ends in the value just appended). -/
noncomputable def RollingAverageDetector.updateStats (s : RollingAverageDetector) :
    RollingAverageDetector :=
  { s with mean := listMean s.window, std := ftStd s.window }

/-- RollingAverageDetector.detect (lines 77-86).  The none result models
the IndexError of window.pop(0) on an empty window (reachable only when
window_size is not positive). -/
noncomputable def RollingAverageDetector.detect (s : RollingAverageDetector) (v : ℝ) :
    RollingAverageDetector × Option Bool :=
  if (s.window.length : ℤ) < s.window_size then
    (RollingAverageDetector.updateStats { s with window := s.window ++ [v] }, some false)
  else
    match s.window with
    | [] => (s, none)
    | _ :: rest =>
      let s1 := RollingAverageDetector.updateStats { s with window := rest ++ [v] }
      (s1, some (decide (s1.threshold_std * s1.std < |v - s1.mean|)))

/-- RollingAverageDetector.fit (lines 72-75): window := data[-window_size:]
then _update_stats.  The none result models the StatisticsError raised by
statistics.mean when the slice is empty (the window assignment has already
happened at that point). -/
noncomputable def RollingAverageDetector.fit (s : RollingAverageDetector) (data : List ℝ) :
    RollingAverageDetector × Option Unit :=
  let w := pySliceFrom (-s.window_size) data
  if w = [] then ({ s with window := w }, none)
  else (RollingAverageDetector.updateStats { s with window := w }, some ())

/-- State of ZScoreDetector (lines 93-113). -/
structure ZScoreDetector where
  window_size : ℤ
  threshold : ℝ
  window : List ℝ

/-- ZScoreDetector.__init__ (lines 94-97): plain field assignment, no
validation of any argument. -/
def ZScoreDetector.init (ws : ℤ) (t : ℝ) : ZScoreDetector :=
  { window_size := ws, threshold := t, window := [] }

/-- ZScoreDetector.fit (lines 99-101): window := data[-window_size:], no
statistics computed. -/
def ZScoreDetector.fit (s : ZScoreDetector) (data : List ℝ) : ZScoreDetector :=
  { s with window := pySliceFrom (-s.window_size) data }

/-- The z_score computed inside ZScoreDetector.detect (lines 110-112) from
the already-updated window w and the incoming value v: mean and std are
recomputed freshly from w, and z is 0 when std is not positive. -/
noncomputable def zScoreOf (w : List ℝ) (v : ℝ) : ℝ :=
  if 0 < Real.sqrt (listSampleVar w) then
    (v - listMean w) / Real.sqrt (listSampleVar w)
  else 0

/-- ZScoreDetector.detect (lines 103-113).  The first none models the
IndexError of window.pop(0) on an empty window; the second none models the
StatisticsError of statistics.stdev on fewer than two data points (the
popped-and-appended window has already been stored at that point). -/
noncomputable def ZScoreDetector.detect (s : ZScoreDetector) (v : ℝ) :
    ZScoreDetector × Option Bool :=
  if (s.window.length : ℤ) < s.window_size then
    ({ s with window := s.window ++ [v] }, some false)
  else
    match s.window with
    | [] => (s, none)
    | _ :: rest =>
      if (rest ++ [v]).length < 2 then ({ s with window := rest ++ [v] }, none)
      else ({ s with window := rest ++ [v] },
            some (decide (s.threshold < |zScoreOf (rest ++ [v]) v|)))

/-- State of AdaptiveRollingAverageDetector (lines 16-62). -/
structure AdaptiveRollingAverageDetector where
  window_size : ℤ
  threshold : ℝ
  adaptation_rate : ℝ
  window : List ℝ
  mean : ℝ
  std : ℝ
  sum : ℝ
  sum_sq : ℝ
  count : ℕ

/-- AdaptiveRollingAverageDetector.__init__ (lines 17-26): plain field
assignment, no validation of any argument. -/
def AdaptiveRollingAverageDetector.init (ws : ℤ) (t r : ℝ) :
    AdaptiveRollingAverageDetector :=
  { window_size := ws, threshold := t, adaptation_rate := r, window := [],
    mean := 0, std := 0, sum := 0, sum_sq := 0, count := 0 }

/-- Lines 29-38 of AdaptiveRollingAverageDetector.detect: increment count,
add v to the running sum and sum of squares, evict the oldest window entry
(subtracting its contribution) when the window is at or above capacity,
append v.  The empty-window case of the match is the state already mutated
when window.pop(0) raises; detect returns none there without reaching this
helper's eviction arithmetic. -/
def AdaptiveRollingAverageDetector.push (s : AdaptiveRollingAverageDetector) (v : ℝ) :
    AdaptiveRollingAverageDetector :=
  let s0 := { s with count := s.count + 1, sum := s.sum + v, sum_sq := s.sum_sq + v ^ 2 }
  if s.window_size ≤ (s.window.length : ℤ) then
    match s.window with
    | [] => s0
    | old :: rest =>
      { s0 with sum := s0.sum - old, sum_sq := s0.sum_sq - old ^ 2, window := rest ++ [v] }
  else { s0 with window := s.window ++ [v] }

/-- AdaptiveRollingAverageDetector._update_stats (lines 55-62): mean is
sum/n and std is max(0.1, sqrt(sum_sq/n - mean^2)) for a nonempty window,
else mean 0 and std 0.1. -/
noncomputable def AdaptiveRollingAverageDetector.updateStats
    (s : AdaptiveRollingAverageDetector) : AdaptiveRollingAverageDetector :=
  if 0 < s.window.length then
    { s with mean := s.sum / s.window.length,
             std := max (1 / 10)
               (Real.sqrt (s.sum_sq / s.window.length - (s.sum / s.window.length) ^ 2)) }
  else { s with mean := 0, std := 1 / 10 }

/-- Line 42: z_score is abs(value - mean)/std when std is positive, else 0. -/
noncomputable def AdaptiveRollingAverageDetector.zscore
    (s : AdaptiveRollingAverageDetector) (v : ℝ) : ℝ :=
  if 0 < s.std then |v - s.mean| / s.std else 0

/-- The z_score that a detect call on state s with value v computes at
line 42, expressed through the same push and _update_stats steps the call
performs first. -/
noncomputable def AdaptiveRollingAverageDetector.zAfter
    (s : AdaptiveRollingAverageDetector) (v : ℝ) : ℝ :=
  AdaptiveRollingAverageDetector.zscore
    (AdaptiveRollingAverageDetector.updateStats (AdaptiveRollingAverageDetector.push s v)) v

/-- AdaptiveRollingAverageDetector.detect (lines 28-53).  The none result
models the IndexError of window.pop(0) on an empty window (reachable only
when window_size is not positive); count, sum and sum_sq have already been
incremented at that point.  Otherwise: push, recompute stats, compute the
z-score, flag when it exceeds the current threshold, and only on a
non-anomalous point smooth the threshold with the hardcoded floor 3.0. -/
noncomputable def AdaptiveRollingAverageDetector.detect
    (s : AdaptiveRollingAverageDetector) (v : ℝ) :
    AdaptiveRollingAverageDetector × Option Bool :=
  if s.window_size ≤ (s.window.length : ℤ) ∧ s.window = [] then
    (AdaptiveRollingAverageDetector.push s v, none)
  else
    let s1 := AdaptiveRollingAverageDetector.updateStats
      (AdaptiveRollingAverageDetector.push s v)
    let z := AdaptiveRollingAverageDetector.zscore s1 v
    if s1.threshold < z then (s1, some true)
    else
      let t1 := max 3 ((1 - s1.adaptation_rate) * s1.threshold + s1.adaptation_rate * z)
      ({ s1 with threshold := t1 }, some false)

/-- Sequential detect calls on a RollingAverageDetector, collecting each
call's result (none standing for a raise). -/
noncomputable def runR :
    RollingAverageDetector → List ℝ → RollingAverageDetector × List (Option Bool)
  | s, [] => (s, [])
  | s, x :: xs =>
    let p := RollingAverageDetector.detect s x
    let q := runR p.1 xs
    (q.1, p.2 :: q.2)

/-- Sequential detect calls on a ZScoreDetector. -/
noncomputable def runZ :
    ZScoreDetector → List ℝ → ZScoreDetector × List (Option Bool)
  | s, [] => (s, [])
  | s, x :: xs =>
    let p := ZScoreDetector.detect s x
    let q := runZ p.1 xs
    (q.1, p.2 :: q.2)

/-- Sequential detect calls on an AdaptiveRollingAverageDetector. -/
noncomputable def runA :
    AdaptiveRollingAverageDetector → List ℝ →
      AdaptiveRollingAverageDetector × List (Option Bool)
  | s, [] => (s, [])
  | s, x :: xs =>
    let p := AdaptiveRollingAverageDetector.detect s x
    let q := runA p.1 xs
    (q.1, p.2 :: q.2)

/-- The window that a fit(history) followed by detect(x) actually compares
against for the fixed-window detectors: the seeded window history
[-window_size:] with its oldest element popped and x appended. -/
def refitWindow (ws : ℤ) (history : List ℝ) (x : ℝ) : List ℝ :=
  (pySliceFrom (-ws) history).tail ++ [x]

/-! Basic unfolding lemmas for the run functions. -/

theorem runR_nil (s : RollingAverageDetector) : runR s [] = (s, []) := rfl

theorem runR_cons (s : RollingAverageDetector) (x : ℝ) (xs : List ℝ) :
    runR s (x :: xs) =
      ((runR (RollingAverageDetector.detect s x).1 xs).1,
       (RollingAverageDetector.detect s x).2 ::
         (runR (RollingAverageDetector.detect s x).1 xs).2) := rfl

theorem runZ_nil (s : ZScoreDetector) : runZ s [] = (s, []) := rfl

theorem runZ_cons (s : ZScoreDetector) (x : ℝ) (xs : List ℝ) :
    runZ s (x :: xs) =
      ((runZ (ZScoreDetector.detect s x).1 xs).1,
       (ZScoreDetector.detect s x).2 :: (runZ (ZScoreDetector.detect s x).1 xs).2) := rfl

theorem runA_nil (s : AdaptiveRollingAverageDetector) : runA s [] = (s, []) := rfl

theorem runA_cons (s : AdaptiveRollingAverageDetector) (x : ℝ) (xs : List ℝ) :
    runA s (x :: xs) =
      ((runA (AdaptiveRollingAverageDetector.detect s x).1 xs).1,
       (AdaptiveRollingAverageDetector.detect s x).2 ::
         (runA (AdaptiveRollingAverageDetector.detect s x).1 xs).2) := rfl

/-! Warm-up behaviour of the two fixed-window detectors. -/

theorem RollingAverageDetector.detect_warm_ra (s : RollingAverageDetector) (v : ℝ)
    (h : (s.window.length : ℤ) < s.window_size) :
    RollingAverageDetector.detect s v =
      (RollingAverageDetector.updateStats { s with window := s.window ++ [v] }, some false) := by
  simp [RollingAverageDetector.detect, h]

theorem ZScoreDetector.detect_warm_zs (s : ZScoreDetector) (v : ℝ)
    (h : (s.window.length : ℤ) < s.window_size) :
    ZScoreDetector.detect s v = ({ s with window := s.window ++ [v] }, some false) := by
  simp [ZScoreDetector.detect, h]

theorem runR_warmup (xs : List ℝ) : ∀ (s : RollingAverageDetector) (i : ℕ),
    (i : ℤ) + s.window.length < s.window_size → i < xs.length →
    ((runR s xs).2).get? i = some (some false) := by
  induction xs with
  | nil => intro s i _ hlen; simp at hlen
  | cons x xs ih =>
    intro s i hi hlen
    have hwarm : (s.window.length : ℤ) < s.window_size := by omega
    rw [runR_cons, RollingAverageDetector.detect_warm_ra s x hwarm]
    cases i with
    | zero => simp
    | succ j =>
      simp only [List.get?_cons_succ]
      apply ih
      · simp only [RollingAverageDetector.updateStats, List.length_append, List.length_cons,
          List.length_nil]
        push_cast
        push_cast at hi
        omega
      · simpa using hlen

theorem runZ_warmup (xs : List ℝ) : ∀ (s : ZScoreDetector) (i : ℕ),
    (i : ℤ) + s.window.length < s.window_size → i < xs.length →
    ((runZ s xs).2).get? i = some (some false) := by
  induction xs with
  | nil => intro s i _ hlen; simp at hlen
  | cons x xs ih =>
    intro s i hi hlen
    have hwarm : (s.window.length : ℤ) < s.window_size := by omega
    rw [runZ_cons, ZScoreDetector.detect_warm_zs s x hwarm]
    cases i with
    | zero => simp
    | succ j =>
      simp only [List.get?_cons_succ]
      apply ih
      · simp only [List.length_append, List.length_cons, List.length_nil]
        push_cast
        push_cast at hi
        omega
      · simpa using hlen

/-- Claim C2: for every Fixed-Threshold Rolling Detector and every Z-Score
Detector with window_size > 0, and for every input sequence, every call to
detect made while fewer than window_size samples have been seen (window not
yet full) returns false. -/
theorem claim_C2 (ws : ℤ) (t u : ℝ) (xs : List ℝ) (i : ℕ)
    (hws : 0 < ws) (hi : (i : ℤ) < ws) (hx : i < xs.length) :
    ((runR (RollingAverageDetector.init ws t) xs).2).get? i = some (some false) ∧
    ((runZ (ZScoreDetector.init ws u) xs).2).get? i = some (some false) := by
  constructor
  · exact runR_warmup xs _ i (by simp [RollingAverageDetector.init]; omega) hx
  · exact runZ_warmup xs _ i (by simp [ZScoreDetector.init]; omega) hx

/-- Witness for claim C2 at window_size 2, inputs [1, 2, 3], call index 0. -/
theorem claim_C2_witness :
    (0 : ℤ) < 2 ∧ ((0 : ℕ) : ℤ) < 2 ∧ (0 : ℕ) < 3 ∧
    ((runR (RollingAverageDetector.init 2 (7/2)) [1, 2, 3]).2).get? 0 = some (some false) ∧
    ((runZ (ZScoreDetector.init 2 (7/2)) [1, 2, 3]).2).get? 0 = some (some false) :=
  ⟨by norm_num, by norm_num, by norm_num,
   (claim_C2 2 (7/2) (7/2) [1, 2, 3] 0 (by norm_num) (by norm_num) (by norm_num)).1,
   (claim_C2 2 (7/2) (7/2) [1, 2, 3] 0 (by norm_num) (by norm_num) (by norm_num)).2⟩

/-! Behaviour of both fixed-window detectors at window_size 1. -/

theorem ZScoreDetector.detect_ws1_zs (s : ZScoreDetector) (v : ℝ)
    (hws : s.window_size = 1) (hlen : s.window.length = 1) :
    ZScoreDetector.detect s v = ({ s with window := [v] }, none) := by
  obtain ⟨a, ha⟩ := List.length_eq_one.mp hlen
  simp [ZScoreDetector.detect, hws, ha]

theorem runZ_ws1_aux (xs : List ℝ) : ∀ (s : ZScoreDetector) (i : ℕ),
    s.window_size = 1 → s.window.length = 1 → i < xs.length →
    ((runZ s xs).2).get? i = some none := by
  induction xs with
  | nil => intro s i _ _ hi; simp at hi
  | cons x xs ih =>
    intro s i hws hlen hi
    rw [runZ_cons, ZScoreDetector.detect_ws1_zs s x hws hlen]
    cases i with
    | zero => simp
    | succ j =>
      simp only [List.get?_cons_succ]
      exact ih _ j hws (by simp) (by simpa using hi)

theorem RollingAverageDetector.detect_ws1_ra (s : RollingAverageDetector) (v : ℝ)
    (hws : s.window_size = 1) (hlen : s.window.length = 1) :
    RollingAverageDetector.detect s v =
      ({ s with window := [v], mean := v, std := 0 }, some false) := by
  obtain ⟨a, ha⟩ := List.length_eq_one.mp hlen
  simp [RollingAverageDetector.detect, RollingAverageDetector.updateStats, hws, ha,
    listMean, ftStd]

theorem runR_ws1_aux (xs : List ℝ) : ∀ (s : RollingAverageDetector) (i : ℕ),
    s.window_size = 1 → s.window.length = 1 → i < xs.length →
    ((runR s xs).2).get? i = some (some false) := by
  induction xs with
  | nil => intro s i _ _ hi; simp at hi
  | cons x xs ih =>
    intro s i hws hlen hi
    rw [runR_cons, RollingAverageDetector.detect_ws1_ra s x hws hlen]
    cases i with
    | zero => simp
    | succ j =>
      simp only [List.get?_cons_succ]
      exact ih _ j hws (by simp) (by simpa using hi)

/-- Claim C10: for a Z-Score Detector with window_size 1 the first detect
call returns false (warm-up) and every later call raises from
statistics.stdev (modelled as a none result) instead of returning a
verdict, while the Fixed-Threshold detector returns false on every call at
window_size 1 because it defines std = 0 for a one-element window. -/
theorem claim_C10 (t u : ℝ) (xs : List ℝ) :
    (xs ≠ [] → ((runZ (ZScoreDetector.init 1 t) xs).2).get? 0 = some (some false)) ∧
    (∀ i : ℕ, 1 ≤ i → i < xs.length →
      ((runZ (ZScoreDetector.init 1 t) xs).2).get? i = some none) ∧
    (∀ i : ℕ, i < xs.length →
      ((runR (RollingAverageDetector.init 1 u) xs).2).get? i = some (some false)) := by
  cases xs with
  | nil =>
    exact ⟨by simp, fun i h₁ h₂ => by simp at h₂, fun i h₂ => by simp at h₂⟩
  | cons x xs =>
    have hwz : ((ZScoreDetector.init 1 t).window.length : ℤ) <
        (ZScoreDetector.init 1 t).window_size := by
      simp [ZScoreDetector.init]
    have hwr : ((RollingAverageDetector.init 1 u).window.length : ℤ) <
        (RollingAverageDetector.init 1 u).window_size := by
      simp [RollingAverageDetector.init]
    refine ⟨?_, ?_, ?_⟩
    · intro _
      rw [runZ_cons, ZScoreDetector.detect_warm_zs _ x hwz]
      simp
    · intro i h₁ h₂
      obtain ⟨j, rfl⟩ : ∃ j, i = j + 1 := ⟨i - 1, by omega⟩
      rw [runZ_cons, ZScoreDetector.detect_warm_zs _ x hwz]
      simp only [List.get?_cons_succ]
      exact runZ_ws1_aux xs _ j (by simp [ZScoreDetector.init]) (by simp [ZScoreDetector.init])
        (by simpa using h₂)
    · intro i h₂
      rw [runR_cons, RollingAverageDetector.detect_warm_ra _ x hwr]
      cases i with
      | zero => simp
      | succ j =>
        simp only [List.get?_cons_succ]
        exact runR_ws1_aux xs _ j
          (by simp [RollingAverageDetector.init, RollingAverageDetector.updateStats])
          (by simp [RollingAverageDetector.init, RollingAverageDetector.updateStats])
          (by simpa using h₂)

/-- Witness for claim C10 at threshold 3.5 and inputs [1, 2, 3]. -/
theorem claim_C10_witness :
    (([1, 2, 3] : List ℝ) ≠ []) ∧ (1 : ℕ) ≤ 1 ∧ (1 : ℕ) < 3 ∧ (2 : ℕ) < 3 ∧
    ((runZ (ZScoreDetector.init 1 (7/2)) [1, 2, 3]).2).get? 0 = some (some false) ∧
    ((runZ (ZScoreDetector.init 1 (7/2)) [1, 2, 3]).2).get? 1 = some none ∧
    ((runR (RollingAverageDetector.init 1 (7/2)) [1, 2, 3]).2).get? 2 = some (some false) :=
  ⟨by simp, by norm_num, by norm_num, by norm_num,
   (claim_C10 (7/2) (7/2) [1, 2, 3]).1 (by simp),
   (claim_C10 (7/2) (7/2) [1, 2, 3]).2.1 1 (by norm_num) (by norm_num),
   (claim_C10 (7/2) (7/2) [1, 2, 3]).2.2 2 (by norm_num)⟩

/-! Statistics of a constant window. -/

theorem list_sum_const (xs : List ℝ) (v : ℝ) (h : ∀ x ∈ xs, x = v) :
    xs.sum = xs.length * v := by
  induction xs with
  | nil => simp
  | cons a l ih =>
    have ha : a = v := h a (by simp)
    have hl : ∀ x ∈ l, x = v := fun x hx => h x (by simp [hx])
    rw [List.sum_cons, ha, ih hl, List.length_cons]
    push_cast
    ring

theorem listMean_const (xs : List ℝ) (v : ℝ) (hne : xs ≠ []) (h : ∀ x ∈ xs, x = v) :
    listMean xs = v := by
  have hp : 0 < xs.length := List.length_pos.mpr hne
  have hn : (xs.length : ℝ) ≠ 0 := by
    exact_mod_cast Nat.pos_iff_ne_zero.mp hp
  rw [listMean, list_sum_const xs v h, mul_comm, mul_div_assoc, div_self hn, mul_one]

theorem listSampleVar_const (xs : List ℝ) (v : ℝ) (hne : xs ≠ []) (h : ∀ x ∈ xs, x = v) :
    listSampleVar xs = 0 := by
  rw [listSampleVar]
  have hz : (xs.map fun x => (x - listMean xs) ^ 2).sum = 0 := by
    apply List.sum_eq_zero
    intro y hy
    simp only [List.mem_map] at hy
    obtain ⟨x, hx, rfl⟩ := hy
    rw [h x hx, listMean_const xs v hne h]
    ring
  rw [hz, zero_div]

theorem zScoreOf_zero_var (w : List ℝ) (v : ℝ) (h : listSampleVar w = 0) :
    zScoreOf w v = 0 := by
  rw [zScoreOf, h, Real.sqrt_zero]
  simp

theorem ZScoreDetector.detect_full_zs (s : ZScoreDetector) (v a : ℝ) (rest : List ℝ)
    (hw : s.window = a :: rest) (hge : s.window_size ≤ (s.window.length : ℤ))
    (hlen : 2 ≤ (rest ++ [v]).length) :
    ZScoreDetector.detect s v =
      ({ s with window := rest ++ [v] },
       some (decide (s.threshold < |zScoreOf (rest ++ [v]) v|))) := by
  have hwl : s.window.length = rest.length + 1 := by rw [hw]; simp
  have hal : (rest ++ [v]).length = rest.length + 1 := by simp
  have h1 : ¬ ((rest.length : ℤ) + 1 < s.window_size) := by
    rw [hwl] at hge
    push_cast at hge ⊢
    omega
  have h2 : ¬ (rest.length + 1 < 2) := by
    rw [hal] at hlen
    omega
  simp [ZScoreDetector.detect, hw, h1, h2]

/-- Claim C3 (amended): for every Z-Score Detector with window_size at
least 2 and nonnegative threshold, whenever a detect call leaves the
window containing only identical values (all equal to the value just
appended, so the window standard deviation is zero), the z_score is 0 and
the call returns false.  The original claim, stated for window_size at
least 1 and any threshold, fails: at window_size 1 every post-warm-up call
raises from statistics.stdev, and with a negative threshold the comparison
0 greater than threshold holds, so the call returns true. -/
theorem claim_C3_amended (s : ZScoreDetector) (v : ℝ)
    (hws : 2 ≤ s.window_size) (ht : 0 ≤ s.threshold)
    (hconst : ∀ x ∈ (ZScoreDetector.detect s v).1.window, x = v) :
    (ZScoreDetector.detect s v).2 = some false := by
  by_cases hwarm : (s.window.length : ℤ) < s.window_size
  · simp [ZScoreDetector.detect, hwarm]
  · push_neg at hwarm
    have hlen : 2 ≤ s.window.length := by omega
    cases hw : s.window with
    | nil => rw [hw] at hlen; simp at hlen
    | cons a rest =>
      have hlen2 : 2 ≤ (rest ++ [v]).length := by
        rw [hw] at hlen
        simp at hlen ⊢
        omega
      rw [ZScoreDetector.detect_full_zs s v a rest hw (by omega) hlen2] at hconst ⊢
      have hvar : listSampleVar (rest ++ [v]) = 0 :=
        listSampleVar_const _ v (by simp) (by simpa using hconst)
      have hz : ¬ (s.threshold < |zScoreOf (rest ++ [v]) v|) := by
        rw [zScoreOf_zero_var _ _ hvar, abs_zero]
        exact not_lt.mpr ht
      simp [hz]

/-- Witness for claim C3 (amended): window [5, 5] at window_size 2,
threshold 3.5, detecting the value 5 again. -/
theorem claim_C3_amended_witness :
    (2 : ℤ) ≤ 2 ∧ (0 : ℝ) ≤ 7/2 ∧
    (∀ x ∈ (ZScoreDetector.detect ⟨2, 7/2, [5, 5]⟩ 5).1.window, x = 5) ∧
    (ZScoreDetector.detect ⟨2, 7/2, [5, 5]⟩ 5).2 = some false := by
  have hconst : ∀ x ∈ (ZScoreDetector.detect ⟨2, 7/2, [5, 5]⟩ 5).1.window, x = (5 : ℝ) := by
    rw [ZScoreDetector.detect_full_zs ⟨2, 7/2, [5, 5]⟩ 5 5 [5] rfl (by simp) (by simp)]
    intro x hx
    simpa using hx
  exact ⟨by norm_num, by norm_num, hconst,
    claim_C3_amended ⟨2, 7/2, [5, 5]⟩ 5 (by norm_num) (by norm_num) hconst⟩

/-- Counterexample to claim C3 as stated: at window_size 1 (allowed by the
claim) the second call on inputs [5, 5] leaves the window [5] (identical
values) but raises StatisticsError from statistics.stdev (result none)
instead of returning false; and at window_size 2 with threshold -1 the
third call on inputs [5, 5, 5] leaves the window [5, 5] with zero variance
yet returns true, because 0 exceeds a negative threshold. -/
theorem claim_C3_counterexample :
    ((runZ (ZScoreDetector.init 1 (7/2)) [5, 5]).2).get? 1 = some none ∧
    ((runZ (ZScoreDetector.init 2 (-1)) [5, 5, 5]).2).get? 2 = some (some true) := by
  constructor
  · rw [runZ_cons, ZScoreDetector.detect_warm_zs _ _ (by simp [ZScoreDetector.init])]
    rw [runZ_cons,
      ZScoreDetector.detect_ws1_zs _ _ (by simp [ZScoreDetector.init])
        (by simp [ZScoreDetector.init])]
    simp
  · rw [runZ_cons, ZScoreDetector.detect_warm_zs _ _ (by simp [ZScoreDetector.init])]
    rw [runZ_cons, ZScoreDetector.detect_warm_zs _ _ (by simp [ZScoreDetector.init])]
    rw [runZ_cons]
    rw [ZScoreDetector.detect_full_zs _ 5 5 [5] (by simp [ZScoreDetector.init])
      (by simp [ZScoreDetector.init]) (by simp)]
    have hvar : listSampleVar [(5 : ℝ), 5] = 0 :=
      listSampleVar_const _ 5 (by simp) (by simp)
    have hz : zScoreOf [(5 : ℝ), 5] 5 = 0 := zScoreOf_zero_var _ _ hvar
    have hlt : (ZScoreDetector.init 2 (-1)).threshold < |zScoreOf [(5 : ℝ), 5] 5| := by
      rw [hz, abs_zero]
      simp [ZScoreDetector.init]
    simp only [List.get?_cons_succ, List.get?_cons_zero]
    simp [hlt]

/-! The concrete Fixed-Threshold scenario of claim C1. -/

theorem RollingAverageDetector.detect_full_ra (s : RollingAverageDetector) (v a : ℝ)
    (rest : List ℝ) (hw : s.window = a :: rest)
    (hge : s.window_size ≤ (s.window.length : ℤ)) :
    RollingAverageDetector.detect s v =
      (RollingAverageDetector.updateStats { s with window := rest ++ [v] },
       some (decide (s.threshold_std * ftStd (rest ++ [v]) < |v - listMean (rest ++ [v])|))) := by
  have hwl : s.window.length = rest.length + 1 := by rw [hw]; simp
  have h1 : ¬ ((rest.length : ℤ) + 1 < s.window_size) := by
    rw [hwl] at hge
    push_cast at hge ⊢
    omega
  simp [RollingAverageDetector.detect, hw, h1, RollingAverageDetector.updateStats]

theorem c1_step1 :
    RollingAverageDetector.detect (RollingAverageDetector.init 5 (7/2)) 10 =
      (⟨5, 7/2, [10], 10, 0⟩, some false) := by
  rw [RollingAverageDetector.detect_warm_ra _ _ (by simp [RollingAverageDetector.init])]
  simp [RollingAverageDetector.init, RollingAverageDetector.updateStats, listMean, ftStd]

theorem c1_step2 :
    RollingAverageDetector.detect ⟨5, 7/2, [10], 10, 0⟩ 10 =
      (⟨5, 7/2, [10, 10], 10, 0⟩, some false) := by
  rw [RollingAverageDetector.detect_warm_ra _ _ (by simp)]
  norm_num [RollingAverageDetector.updateStats, listMean, ftStd, listSampleVar]

theorem c1_step3 :
    RollingAverageDetector.detect ⟨5, 7/2, [10, 10], 10, 0⟩ 10 =
      (⟨5, 7/2, [10, 10, 10], 10, 0⟩, some false) := by
  rw [RollingAverageDetector.detect_warm_ra _ _ (by simp)]
  norm_num [RollingAverageDetector.updateStats, listMean, ftStd, listSampleVar]

theorem c1_step4 :
    RollingAverageDetector.detect ⟨5, 7/2, [10, 10, 10], 10, 0⟩ 10 =
      (⟨5, 7/2, [10, 10, 10, 10], 10, 0⟩, some false) := by
  rw [RollingAverageDetector.detect_warm_ra _ _ (by simp)]
  norm_num [RollingAverageDetector.updateStats, listMean, ftStd, listSampleVar]

theorem c1_step5 :
    RollingAverageDetector.detect ⟨5, 7/2, [10, 10, 10, 10], 10, 0⟩ 10 =
      (⟨5, 7/2, [10, 10, 10, 10, 10], 10, 0⟩, some false) := by
  rw [RollingAverageDetector.detect_warm_ra _ _ (by simp)]
  norm_num [RollingAverageDetector.updateStats, listMean, ftStd, listSampleVar]

theorem c1_mean : listMean [10, 10, 10, 10, 100] = 28 := by
  simp [listMean]
  norm_num

theorem c1_var : listSampleVar [10, 10, 10, 10, 100] = 1620 := by
  simp [listSampleVar, listMean]
  norm_num

theorem c1_no_flag :
    ¬ ((7/2 : ℝ) * ftStd [10, 10, 10, 10, 100] < |(100 : ℝ) - listMean [10, 10, 10, 10, 100]|) := by
  rw [c1_mean, ftStd, c1_var]
  have hforty : (40 : ℝ) ≤ Real.sqrt 1620 :=
    (Real.le_sqrt' (by norm_num)).mpr (by norm_num)
  have habs : |(100 : ℝ) - 28| = 72 := by norm_num
  rw [habs, if_pos (by norm_num)]
  push_neg
  nlinarith [hforty]

theorem c1_step6 :
    RollingAverageDetector.detect ⟨5, 7/2, [10, 10, 10, 10, 10], 10, 0⟩ 100 =
      (RollingAverageDetector.updateStats ⟨5, 7/2, [10, 10, 10, 10, 100], 10, 0⟩,
       some false) := by
  rw [RollingAverageDetector.detect_full_ra _ 100 10 [10, 10, 10, 10] rfl (by simp)]
  simp [c1_no_flag]

/-- Counterexample to claim C1 as stated: with window_size 5 and the
default threshold multiplier 3.5, after five detect calls on the value 10
the sixth call detect(100) returns false, not true.  The call pushes 100
into the window before recomputing the statistics, so the comparison uses
the window [10, 10, 10, 10, 100] (mean 28, sample standard deviation
sqrt 1620) rather than the zero-variance warm-up window. -/
theorem claim_C1_counterexample :
    ((runR (RollingAverageDetector.init 5 (7/2)) [10, 10, 10, 10, 10, 100]).2).get? 5
      = some (some false) := by
  rw [runR_cons, c1_step1, runR_cons, c1_step2, runR_cons, c1_step3, runR_cons, c1_step4,
    runR_cons, c1_step5, runR_cons, c1_step6]
  simp

/-- Claim C1 (amended): in the same scenario every one of the six calls
returns false (the first five by warm-up suppression, the sixth because the
freshly pushed value 100 is part of the window whose statistics the
comparison uses: the deviation 72 does not exceed 3.5 times sqrt 1620),
and after the sixth call the window is [10, 10, 10, 10, 100] with mean 28.
The zero-variance flagging behaviour described by the original claim would
need the pre-push statistics, which the code does not use. -/
theorem claim_C1_amended :
    (runR (RollingAverageDetector.init 5 (7/2)) [10, 10, 10, 10, 10, 100]).2 =
      [some false, some false, some false, some false, some false, some false] ∧
    (runR (RollingAverageDetector.init 5 (7/2)) [10, 10, 10, 10, 10, 100]).1.window =
      [10, 10, 10, 10, 100] ∧
    (runR (RollingAverageDetector.init 5 (7/2)) [10, 10, 10, 10, 10, 100]).1.mean = 28 := by
  rw [runR_cons, c1_step1, runR_cons, c1_step2, runR_cons, c1_step3, runR_cons, c1_step4,
    runR_cons, c1_step5, runR_cons, c1_step6]
  refine ⟨by simp [runR_nil], ?_, ?_⟩
  · simp [runR_nil, RollingAverageDetector.updateStats]
  · simp [runR_nil, RollingAverageDetector.updateStats, c1_mean]

/-! Field-preservation lemmas. -/

@[simp] theorem RollingAverageDetector.updateStats_window_ra (s : RollingAverageDetector) :
    (RollingAverageDetector.updateStats s).window = s.window := rfl

@[simp] theorem RollingAverageDetector.updateStats_window_size (s : RollingAverageDetector) :
    (RollingAverageDetector.updateStats s).window_size = s.window_size := rfl

@[simp] theorem RollingAverageDetector.updateStats_threshold_std (s : RollingAverageDetector) :
    (RollingAverageDetector.updateStats s).threshold_std = s.threshold_std := rfl

@[simp] theorem RollingAverageDetector.updateStats_mean (s : RollingAverageDetector) :
    (RollingAverageDetector.updateStats s).mean = listMean s.window := rfl

@[simp] theorem RollingAverageDetector.updateStats_std (s : RollingAverageDetector) :
    (RollingAverageDetector.updateStats s).std = ftStd s.window := rfl

/-! Slice facts used by the fit round-trip. -/

theorem pySliceStart_neg (ws : ℤ) (n : ℕ) (h1 : 1 ≤ ws) (h2 : ws ≤ (n : ℤ)) :
    pySliceStart (-ws) n = n - ws.toNat := by
  rw [pySliceStart, if_pos (by omega : -ws < 0),
    max_eq_right (by omega : (0 : ℤ) ≤ (n : ℤ) + -ws)]
  omega

theorem pySliceFrom_neg_len (ws : ℤ) (xs : List ℝ) (h1 : 1 ≤ ws)
    (h2 : ws ≤ (xs.length : ℤ)) : (pySliceFrom (-ws) xs).length = ws.toNat := by
  rw [pySliceFrom, pySliceStart_neg ws xs.length h1 h2, List.length_drop]
  omega

/-- Claim C7 (amended): fit(history) followed by detect(history[-1]) on a
Fixed-Threshold or Z-Score detector whose window_size is at most the
history length makes the detect comparison use the mean and std of the
refit window (history[-window_size:] with its oldest element popped and
history[-1] appended again), not of history[-window_size:] itself: detect
pushes its argument into the window before recomputing the statistics.
The Z-Score part needs window_size at least 2, since at window_size 1 the
call raises from statistics.stdev. -/
theorem claim_C7_amended (ws : ℤ) (t u : ℝ) (pre : List ℝ) (x : ℝ)
    (h1 : 1 ≤ ws) (h2 : ws ≤ ((pre ++ [x]).length : ℤ)) :
    (RollingAverageDetector.detect
        (((RollingAverageDetector.init ws t).fit (pre ++ [x])).1) x).1.mean
      = listMean (refitWindow ws (pre ++ [x]) x) ∧
    (RollingAverageDetector.detect
        (((RollingAverageDetector.init ws t).fit (pre ++ [x])).1) x).1.std
      = ftStd (refitWindow ws (pre ++ [x]) x) ∧
    (RollingAverageDetector.detect
        (((RollingAverageDetector.init ws t).fit (pre ++ [x])).1) x).2
      = some (decide (t * ftStd (refitWindow ws (pre ++ [x]) x)
          < |x - listMean (refitWindow ws (pre ++ [x]) x)|)) ∧
    (2 ≤ ws →
      (ZScoreDetector.detect ((ZScoreDetector.init ws u).fit (pre ++ [x])) x).2
        = some (decide (u < |zScoreOf (refitWindow ws (pre ++ [x]) x) x|))) := by
  set history := pre ++ [x] with hhist
  set w0 := pySliceFrom (-ws) history with hw0
  have hlen0 : w0.length = ws.toNat := pySliceFrom_neg_len ws history h1 h2
  have hne : w0 ≠ [] := by
    intro h
    rw [h] at hlen0
    simp at hlen0
    omega
  obtain ⟨a, rest, hcons⟩ := List.exists_cons_of_ne_nil hne
  have hrw : refitWindow ws history x = rest ++ [x] := by
    rw [refitWindow, ← hw0, hcons]
    simp
  have hfit : ((RollingAverageDetector.init ws t).fit history).1
      = RollingAverageDetector.updateStats
          { RollingAverageDetector.init ws t with window := w0 } := by
    rw [RollingAverageDetector.fit]
    simp only [RollingAverageDetector.init, ← hw0]
    rw [if_neg (by simpa using hne)]
  have hwin : (((RollingAverageDetector.init ws t).fit history).1).window = a :: rest := by
    rw [hfit]
    simpa using hcons
  have hts : (((RollingAverageDetector.init ws t).fit history).1).threshold_std = t := by
    rw [hfit]
    simp [RollingAverageDetector.init]
  have hge : (((RollingAverageDetector.init ws t).fit history).1).window_size
      ≤ ((((RollingAverageDetector.init ws t).fit history).1).window.length : ℤ) := by
    rw [hfit]
    simp only [RollingAverageDetector.updateStats_window_size,
      RollingAverageDetector.updateStats_window_ra, RollingAverageDetector.init]
    rw [hlen0]
    omega
  refine ⟨?_, ?_, ?_, ?_⟩
  · rw [RollingAverageDetector.detect_full_ra _ x a rest hwin hge, hrw]
    simp
  · rw [RollingAverageDetector.detect_full_ra _ x a rest hwin hge, hrw]
    simp
  · rw [RollingAverageDetector.detect_full_ra _ x a rest hwin hge, hrw, hts]
  · intro h3
    have hzfit : (ZScoreDetector.init ws u).fit history
        = { ZScoreDetector.init ws u with window := w0 } := by
      rw [ZScoreDetector.fit]
      simp only [ZScoreDetector.init, ← hw0]
    have hzwin : ((ZScoreDetector.init ws u).fit history).window = a :: rest := by
      rw [hzfit]
      simpa using hcons
    have hzge : ((ZScoreDetector.init ws u).fit history).window_size
        ≤ (((ZScoreDetector.init ws u).fit history).window.length : ℤ) := by
      rw [hzfit]
      simp only [ZScoreDetector.init]
      show ws ≤ (w0.length : ℤ)
      rw [hlen0]
      omega
    have hz2 : 2 ≤ (rest ++ [x]).length := by
      have : w0.length = rest.length + 1 := by rw [hcons]; simp
      simp only [List.length_append, List.length_cons, List.length_nil]
      omega
    rw [ZScoreDetector.detect_full_zs _ x a rest hzwin hzge hz2, hrw]
    have hzt : ((ZScoreDetector.init ws u).fit history).threshold = u := by
      rw [hzfit]
      simp [ZScoreDetector.init]
    rw [hzt]

/-- Witness for claim C7 (amended) at window_size 2, history [1, 3]. -/
theorem claim_C7_amended_witness :
    (1 : ℤ) ≤ 2 ∧ (2 : ℤ) ≤ ((([1] : List ℝ) ++ [3]).length : ℤ) ∧
    ((RollingAverageDetector.detect
        (((RollingAverageDetector.init 2 (7/2)).fit ([1] ++ [3])).1) 3).1.mean
      = listMean (refitWindow 2 ([1] ++ [3]) 3) ∧
     (RollingAverageDetector.detect
        (((RollingAverageDetector.init 2 (7/2)).fit ([1] ++ [3])).1) 3).1.std
      = ftStd (refitWindow 2 ([1] ++ [3]) 3) ∧
     (RollingAverageDetector.detect
        (((RollingAverageDetector.init 2 (7/2)).fit ([1] ++ [3])).1) 3).2
      = some (decide ((7/2) * ftStd (refitWindow 2 ([1] ++ [3]) 3)
          < |3 - listMean (refitWindow 2 ([1] ++ [3]) 3)|)) ∧
     (2 ≤ (2 : ℤ) →
      (ZScoreDetector.detect ((ZScoreDetector.init 2 (7/2)).fit ([1] ++ [3])) 3).2
        = some (decide ((7/2) < |zScoreOf (refitWindow 2 ([1] ++ [3]) 3) 3|)))) :=
  ⟨by norm_num, by norm_num,
   claim_C7_amended 2 (7/2) (7/2) [1] 3 (by norm_num) (by norm_num)⟩

/-- Counterexample to claim C7 as stated: window_size 2, history [1, 3].
After fit([1, 3]), the call detect(3) compares against mean 3 (the mean of
the popped-and-reappended window [3, 3]), whereas the mean of
history[-2:] = [1, 3] is 2: the two disagree, so fit-then-detect does not
use the statistics of history[-window_size:]. -/
theorem claim_C7_counterexample :
    (RollingAverageDetector.detect
        (((RollingAverageDetector.init 2 (7/2)).fit [1, 3]).1) 3).1.mean = 3 ∧
    listMean (pySliceFrom (-2) [1, 3]) = 2 ∧
    (RollingAverageDetector.detect
        (((RollingAverageDetector.init 2 (7/2)).fit [1, 3]).1) 3).1.mean
      ≠ listMean (pySliceFrom (-2) [1, 3]) := by
  have hslice : pySliceFrom (-2) [(1 : ℝ), 3] = [1, 3] := by
    rw [pySliceFrom, pySliceStart]
    norm_num
  have hfit : ((RollingAverageDetector.init 2 (7/2)).fit [1, 3]).1
      = RollingAverageDetector.updateStats ⟨2, 7/2, [(1 : ℝ), 3], 0, 0⟩ := by
    rw [RollingAverageDetector.fit]
    simp only [RollingAverageDetector.init, hslice]
    rw [if_neg (by simp)]
  have hwin : (((RollingAverageDetector.init 2 (7/2)).fit [1, 3]).1).window
      = (1 : ℝ) :: [3] := by
    rw [hfit]
    simp
  have hge : (((RollingAverageDetector.init 2 (7/2)).fit [1, 3]).1).window_size
      ≤ ((((RollingAverageDetector.init 2 (7/2)).fit [1, 3]).1).window.length : ℤ) := by
    rw [hfit]
    simp
  have hmean : (RollingAverageDetector.detect
      (((RollingAverageDetector.init 2 (7/2)).fit [1, 3]).1) 3).1.mean = 3 := by
    rw [RollingAverageDetector.detect_full_ra _ 3 1 [3] hwin hge]
    norm_num [listMean]
  refine ⟨hmean, ?_, ?_⟩
  · rw [hslice, listMean]
    norm_num
  · rw [hmean, hslice, listMean]
    norm_num

/-! Field preservation for the adaptive detector's internal steps. -/

theorem AdaptiveRollingAverageDetector.push_threshold (s : AdaptiveRollingAverageDetector)
    (v : ℝ) : (AdaptiveRollingAverageDetector.push s v).threshold = s.threshold := by
  rw [AdaptiveRollingAverageDetector.push]
  split
  · split <;> rfl
  · rfl

theorem AdaptiveRollingAverageDetector.push_rate (s : AdaptiveRollingAverageDetector)
    (v : ℝ) : (AdaptiveRollingAverageDetector.push s v).adaptation_rate = s.adaptation_rate := by
  rw [AdaptiveRollingAverageDetector.push]
  split
  · split <;> rfl
  · rfl

theorem AdaptiveRollingAverageDetector.push_count (s : AdaptiveRollingAverageDetector)
    (v : ℝ) : (AdaptiveRollingAverageDetector.push s v).count = s.count + 1 := by
  rw [AdaptiveRollingAverageDetector.push]
  split
  · split <;> rfl
  · rfl

theorem AdaptiveRollingAverageDetector.push_ws (s : AdaptiveRollingAverageDetector)
    (v : ℝ) : (AdaptiveRollingAverageDetector.push s v).window_size = s.window_size := by
  rw [AdaptiveRollingAverageDetector.push]
  split
  · split <;> rfl
  · rfl

theorem AdaptiveRollingAverageDetector.updateStats_threshold
    (s : AdaptiveRollingAverageDetector) :
    (AdaptiveRollingAverageDetector.updateStats s).threshold = s.threshold := by
  rw [AdaptiveRollingAverageDetector.updateStats]
  split <;> rfl

theorem AdaptiveRollingAverageDetector.updateStats_rate
    (s : AdaptiveRollingAverageDetector) :
    (AdaptiveRollingAverageDetector.updateStats s).adaptation_rate = s.adaptation_rate := by
  rw [AdaptiveRollingAverageDetector.updateStats]
  split <;> rfl

theorem AdaptiveRollingAverageDetector.updateStats_window_ad
    (s : AdaptiveRollingAverageDetector) :
    (AdaptiveRollingAverageDetector.updateStats s).window = s.window := by
  rw [AdaptiveRollingAverageDetector.updateStats]
  split <;> rfl

theorem AdaptiveRollingAverageDetector.updateStats_sum
    (s : AdaptiveRollingAverageDetector) :
    (AdaptiveRollingAverageDetector.updateStats s).sum = s.sum := by
  rw [AdaptiveRollingAverageDetector.updateStats]
  split <;> rfl

theorem AdaptiveRollingAverageDetector.updateStats_sum_sq
    (s : AdaptiveRollingAverageDetector) :
    (AdaptiveRollingAverageDetector.updateStats s).sum_sq = s.sum_sq := by
  rw [AdaptiveRollingAverageDetector.updateStats]
  split <;> rfl

theorem AdaptiveRollingAverageDetector.updateStats_count
    (s : AdaptiveRollingAverageDetector) :
    (AdaptiveRollingAverageDetector.updateStats s).count = s.count := by
  rw [AdaptiveRollingAverageDetector.updateStats]
  split <;> rfl

theorem AdaptiveRollingAverageDetector.updateStats_ws
    (s : AdaptiveRollingAverageDetector) :
    (AdaptiveRollingAverageDetector.updateStats s).window_size = s.window_size := by
  rw [AdaptiveRollingAverageDetector.updateStats]
  split <;> rfl

/-! Evaluation of the very first adaptive detect call. -/

theorem adaptive_first_push (ws : ℤ) (t r v : ℝ) (hws : 1 ≤ ws) :
    (AdaptiveRollingAverageDetector.init ws t r).push v
      = ⟨ws, t, r, [v], 0, 0, v, v ^ 2, 1⟩ := by
  rw [AdaptiveRollingAverageDetector.push,
    if_neg (by simp [AdaptiveRollingAverageDetector.init]; omega)]
  simp [AdaptiveRollingAverageDetector.init]

theorem adaptive_first_upd (ws : ℤ) (t r v : ℝ) :
    AdaptiveRollingAverageDetector.updateStats ⟨ws, t, r, [v], 0, 0, v, v ^ 2, 1⟩
      = ⟨ws, t, r, [v], v, 1 / 10, v, v ^ 2, 1⟩ := by
  rw [AdaptiveRollingAverageDetector.updateStats, if_pos (by simp)]
  have hmax : max (1 / 10 : ℝ) 0 = 1 / 10 := max_eq_left (by norm_num)
  simp [Real.sqrt_zero, hmax]

theorem adaptive_first_z (ws : ℤ) (t r v : ℝ) :
    AdaptiveRollingAverageDetector.zscore ⟨ws, t, r, [v], v, 1 / 10, v, v ^ 2, 1⟩ v = 0 := by
  rw [AdaptiveRollingAverageDetector.zscore, if_pos (by norm_num)]
  simp

theorem adaptive_first_cond (ws : ℤ) (t r : ℝ) (hws : 1 ≤ ws) :
    ¬ ((AdaptiveRollingAverageDetector.init ws t r).window_size
        ≤ (((AdaptiveRollingAverageDetector.init ws t r).window.length : ℤ))
      ∧ (AdaptiveRollingAverageDetector.init ws t r).window = []) := by
  simp [AdaptiveRollingAverageDetector.init]
  omega

theorem adaptive_first_detect (ws : ℤ) (t r v : ℝ) (hws : 1 ≤ ws) (ht : 0 ≤ t) :
    (AdaptiveRollingAverageDetector.init ws t r).detect v
      = (⟨ws, max 3 ((1 - r) * t), r, [v], v, 1 / 10, v, v ^ 2, 1⟩, some false) := by
  rw [AdaptiveRollingAverageDetector.detect, if_neg (adaptive_first_cond ws t r hws)]
  simp only [adaptive_first_push ws t r v hws, adaptive_first_upd, adaptive_first_z]
  rw [if_neg (by simpa using not_lt.mpr ht)]
  simp

theorem adaptive_first_detect_anom (ws : ℤ) (t r v : ℝ) (hws : 1 ≤ ws) (ht : t < 0) :
    (AdaptiveRollingAverageDetector.init ws t r).detect v
      = (⟨ws, t, r, [v], v, 1 / 10, v, v ^ 2, 1⟩, some true) := by
  rw [AdaptiveRollingAverageDetector.detect, if_neg (adaptive_first_cond ws t r hws)]
  simp only [adaptive_first_push ws t r v hws, adaptive_first_upd, adaptive_first_z]
  rw [if_pos (by simpa using ht)]

/-- Claim C6: the Adaptive-Threshold Detector performs no warm-up
suppression: there is a configuration and an input value for which the
very first detect call on a freshly constructed adaptive detector returns
true — here window_size 3, initial_threshold -2, adaptation_rate 0.1 and
input 7 (on a first call the z-score is always 0, so a first-call anomaly
requires a negative initial threshold). -/
theorem claim_C6 :
    ((AdaptiveRollingAverageDetector.init 3 (-2) (1/10)).detect 7).2 = some true := by
  rw [adaptive_first_detect_anom 3 (-2) (1/10) 7 (by norm_num) (by norm_num)]

/-! Threshold floor invariant of the adaptive detector. -/

theorem adaptive_detect_threshold_ge (s : AdaptiveRollingAverageDetector) (v : ℝ)
    (h : 3 ≤ s.threshold) :
    3 ≤ (AdaptiveRollingAverageDetector.detect s v).1.threshold := by
  rw [AdaptiveRollingAverageDetector.detect]
  split
  · simpa [AdaptiveRollingAverageDetector.push_threshold] using h
  · simp only
    split
    · simpa [AdaptiveRollingAverageDetector.updateStats_threshold,
        AdaptiveRollingAverageDetector.push_threshold] using h
    · simpa using le_max_left 3 _

theorem adaptive_run_threshold_ge (xs : List ℝ) :
    ∀ s : AdaptiveRollingAverageDetector, 3 ≤ s.threshold →
    3 ≤ (runA s xs).1.threshold := by
  induction xs with
  | nil => intro s h; simpa [runA_nil] using h
  | cons x xs ih =>
    intro s h
    rw [runA_cons]
    exact ih _ (adaptive_detect_threshold_ge s x h)

/-- Claim C4 (amended): for every Adaptive-Threshold Detector with
window_size at least 1 and nonnegative initial_threshold, and any
adaptation_rate, after every detect call (equivalently, after processing
any nonempty input sequence) the threshold is at least the hardcoded floor
3.0.  The original claim, stated for any initial_threshold, fails: a
negative initial threshold makes every call anomalous (the z-score is
nonnegative), the threshold is then never updated, and it stays below the
floor forever. -/
theorem claim_C4_amended (ws : ℤ) (t r : ℝ) (xs : List ℝ)
    (hws : 1 ≤ ws) (ht : 0 ≤ t) (hne : xs ≠ []) :
    3 ≤ (runA (AdaptiveRollingAverageDetector.init ws t r) xs).1.threshold := by
  cases xs with
  | nil => exact absurd rfl hne
  | cons x xs =>
    rw [runA_cons]
    apply adaptive_run_threshold_ge
    rw [AdaptiveRollingAverageDetector.detect, if_neg (adaptive_first_cond ws t r hws)]
    simp only [adaptive_first_push ws t r x hws, adaptive_first_upd, adaptive_first_z]
    rw [if_neg (by simpa using not_lt.mpr ht)]
    simpa using le_max_left 3 _

/-- Witness for claim C4 (amended): window_size 1, initial_threshold 0,
adaptation_rate 0.05, input sequence [5]. -/
theorem claim_C4_amended_witness :
    (1 : ℤ) ≤ 1 ∧ (0 : ℝ) ≤ 0 ∧ ([(5 : ℝ)] ≠ []) ∧
    3 ≤ (runA (AdaptiveRollingAverageDetector.init 1 0 (1/20)) [(5 : ℝ)]).1.threshold :=
  ⟨by norm_num, by norm_num, by simp,
   claim_C4_amended 1 0 (1/20) [(5 : ℝ)] (by norm_num) (by norm_num) (by simp)⟩

/-- Counterexample to claim C4 as stated: with initial_threshold -1 (and
window_size 1, adaptation_rate 0.05) the single call detect(5) returns
true, the threshold is therefore not updated, and after the call it is
still -1, strictly below the minimum_threshold floor 3.0. -/
theorem claim_C4_counterexample :
    (runA (AdaptiveRollingAverageDetector.init 1 (-1) (1/20)) [(5 : ℝ)]).1.threshold = -1 ∧
    (-1 : ℝ) < 3 := by
  constructor
  · rw [runA_cons, adaptive_first_detect_anom 1 (-1) (1/20) 5 (by norm_num) (by norm_num),
      runA_nil]
  · norm_num

/-- Claim C5 (amended): for every Adaptive-Threshold Detector state and
every detect call, the threshold is left unchanged whenever the call
returned true, and whenever the call returns false the threshold is set to
max(minimum_threshold, (1-adaptation_rate)*threshold + adaptation_rate*z)
with z the z-score the call computed.  The original claim's "when and only
when" fails: the assignment performed on a false verdict can reproduce the
old value, for example when the threshold already sits at the 3.0 floor
and z is small, so an unchanged threshold does not imply the call returned
true. -/
theorem claim_C5_amended (s : AdaptiveRollingAverageDetector) (v : ℝ) :
    ((AdaptiveRollingAverageDetector.detect s v).2 = some true →
      (AdaptiveRollingAverageDetector.detect s v).1.threshold = s.threshold) ∧
    ((AdaptiveRollingAverageDetector.detect s v).2 = some false →
      (AdaptiveRollingAverageDetector.detect s v).1.threshold
        = max 3 ((1 - s.adaptation_rate) * s.threshold
            + s.adaptation_rate * AdaptiveRollingAverageDetector.zAfter s v)) := by
  rw [AdaptiveRollingAverageDetector.detect]
  split
  · constructor <;> intro h <;> simp at h
  · simp only
    split
    · refine ⟨fun _ => ?_, fun h => by simp at h⟩
      rw [AdaptiveRollingAverageDetector.updateStats_threshold,
        AdaptiveRollingAverageDetector.push_threshold]
    · refine ⟨fun h => by simp at h, fun _ => ?_⟩
      simp only [AdaptiveRollingAverageDetector.zAfter,
        AdaptiveRollingAverageDetector.updateStats_threshold,
        AdaptiveRollingAverageDetector.push_threshold,
        AdaptiveRollingAverageDetector.updateStats_rate,
        AdaptiveRollingAverageDetector.push_rate]

/-- Witness for claim C5 (amended): fresh detector with window_size 1,
initial_threshold 3, adaptation_rate 0.05, detecting 5 (a false verdict). -/
theorem claim_C5_amended_witness :
    ((AdaptiveRollingAverageDetector.init 1 3 (1/20)).detect 5).2 = some false ∧
    ((AdaptiveRollingAverageDetector.init 1 3 (1/20)).detect 5).1.threshold
      = max 3 ((1 - (AdaptiveRollingAverageDetector.init 1 3 (1/20)).adaptation_rate)
            * (AdaptiveRollingAverageDetector.init 1 3 (1/20)).threshold
          + (AdaptiveRollingAverageDetector.init 1 3 (1/20)).adaptation_rate
            * AdaptiveRollingAverageDetector.zAfter
                (AdaptiveRollingAverageDetector.init 1 3 (1/20)) 5) := by
  have h2 : ((AdaptiveRollingAverageDetector.init 1 3 (1/20)).detect 5).2 = some false := by
    rw [adaptive_first_detect 1 3 (1/20) 5 (by norm_num) (by norm_num)]
  exact ⟨h2, (claim_C5_amended (AdaptiveRollingAverageDetector.init 1 3 (1/20)) 5).2 h2⟩

/-- Counterexample to claim C5 as stated: fresh adaptive detector with
window_size 1, initial_threshold 3, adaptation_rate 0.05.  The call
detect(5) returns false, yet the threshold after the call equals the
threshold before it (max(3.0, 0.95*3 + 0.05*0) = 3.0), refuting the "only
when the call returned true" direction. -/
theorem claim_C5_counterexample :
    ((AdaptiveRollingAverageDetector.init 1 3 (1/20)).detect 5).2 = some false ∧
    ((AdaptiveRollingAverageDetector.init 1 3 (1/20)).detect 5).1.threshold
      = (AdaptiveRollingAverageDetector.init 1 3 (1/20)).threshold := by
  rw [adaptive_first_detect 1 3 (1/20) 5 (by norm_num) (by norm_num)]
  refine ⟨rfl, ?_⟩
  show max 3 ((1 - 1/20) * 3) = (3 : ℝ)
  rw [max_eq_left (by norm_num)]

/-! Window and accumulator invariants of the adaptive detector. -/

theorem adaptive_push_invariant (s : AdaptiveRollingAverageDetector) (v : ℝ)
    (hws : 0 < s.window_size)
    (hsum : s.sum = s.window.sum)
    (hsq : s.sum_sq = (s.window.map fun x => x ^ 2).sum)
    (hlen : (s.window.length : ℤ) = min (s.count : ℤ) s.window_size) :
    (AdaptiveRollingAverageDetector.push s v).sum
        = (AdaptiveRollingAverageDetector.push s v).window.sum ∧
    (AdaptiveRollingAverageDetector.push s v).sum_sq
        = ((AdaptiveRollingAverageDetector.push s v).window.map fun x => x ^ 2).sum ∧
    (((AdaptiveRollingAverageDetector.push s v).window.length : ℤ)
        = min ((s.count : ℤ) + 1) s.window_size) := by
  rw [AdaptiveRollingAverageDetector.push]
  by_cases hge : s.window_size ≤ (s.window.length : ℤ)
  · rw [if_pos hge]
    cases hw : s.window with
    | nil =>
      exfalso
      rw [hw] at hlen hge
      simp only [List.length_nil, Nat.cast_zero] at hlen hge
      omega
    | cons a rest =>
      rw [hw] at hsum hsq hlen hge
      simp only [List.length_cons] at hlen hge
      refine ⟨?_, ?_, ?_⟩
      · simp only [List.sum_append, List.sum_cons, List.sum_nil]
        rw [List.sum_cons] at hsum
        rw [hsum]
        ring
      · simp only [List.map_append, List.map_cons, List.map_nil, List.sum_append,
          List.sum_cons, List.sum_nil]
        rw [List.map_cons, List.sum_cons] at hsq
        rw [hsq]
        ring
      · simp only [List.length_append, List.length_cons, List.length_nil]
        push_cast at hlen ⊢
        omega
  · rw [if_neg hge]
    refine ⟨?_, ?_, ?_⟩
    · simp only [List.sum_append, List.sum_cons, List.sum_nil]
      rw [hsum]
      ring
    · simp only [List.map_append, List.map_cons, List.map_nil, List.sum_append,
        List.sum_cons, List.sum_nil]
      rw [hsq]
      ring
    · simp only [List.length_append, List.length_cons, List.length_nil]
      push_cast at hlen ⊢
      omega

theorem adaptive_detect_invariant (s : AdaptiveRollingAverageDetector) (v : ℝ)
    (hws : 0 < s.window_size)
    (hsum : s.sum = s.window.sum)
    (hsq : s.sum_sq = (s.window.map fun x => x ^ 2).sum)
    (hlen : (s.window.length : ℤ) = min (s.count : ℤ) s.window_size) :
    (AdaptiveRollingAverageDetector.detect s v).1.sum
        = (AdaptiveRollingAverageDetector.detect s v).1.window.sum ∧
    (AdaptiveRollingAverageDetector.detect s v).1.sum_sq
        = ((AdaptiveRollingAverageDetector.detect s v).1.window.map fun x => x ^ 2).sum ∧
    (((AdaptiveRollingAverageDetector.detect s v).1.window.length : ℤ)
        = min ((s.count : ℤ) + 1) s.window_size) ∧
    (AdaptiveRollingAverageDetector.detect s v).1.count = s.count + 1 ∧
    (AdaptiveRollingAverageDetector.detect s v).1.window_size = s.window_size := by
  have herr : ¬ (s.window_size ≤ (s.window.length : ℤ) ∧ s.window = []) := by
    rintro ⟨h1, h2⟩
    rw [h2] at hlen h1
    simp at hlen h1
    omega
  obtain ⟨p1, p2, p3⟩ := adaptive_push_invariant s v hws hsum hsq hlen
  rw [AdaptiveRollingAverageDetector.detect, if_neg herr]
  simp only
  split
  · exact ⟨by simpa [AdaptiveRollingAverageDetector.updateStats_sum,
        AdaptiveRollingAverageDetector.updateStats_window_ad] using p1,
      by simpa [AdaptiveRollingAverageDetector.updateStats_sum_sq,
        AdaptiveRollingAverageDetector.updateStats_window_ad] using p2,
      by simpa [AdaptiveRollingAverageDetector.updateStats_window_ad] using p3,
      by simp [AdaptiveRollingAverageDetector.updateStats_count,
        AdaptiveRollingAverageDetector.push_count],
      by simp [AdaptiveRollingAverageDetector.updateStats_ws,
        AdaptiveRollingAverageDetector.push_ws]⟩
  · exact ⟨by simpa [AdaptiveRollingAverageDetector.updateStats_sum,
        AdaptiveRollingAverageDetector.updateStats_window_ad] using p1,
      by simpa [AdaptiveRollingAverageDetector.updateStats_sum_sq,
        AdaptiveRollingAverageDetector.updateStats_window_ad] using p2,
      by simpa [AdaptiveRollingAverageDetector.updateStats_window_ad] using p3,
      by simp [AdaptiveRollingAverageDetector.updateStats_count,
        AdaptiveRollingAverageDetector.push_count],
      by simp [AdaptiveRollingAverageDetector.updateStats_ws,
        AdaptiveRollingAverageDetector.push_ws]⟩

theorem adaptive_run_invariant (xs : List ℝ) :
    ∀ s : AdaptiveRollingAverageDetector, 0 < s.window_size →
    s.sum = s.window.sum →
    s.sum_sq = (s.window.map fun x => x ^ 2).sum →
    (s.window.length : ℤ) = min (s.count : ℤ) s.window_size →
    ((runA s xs).1.sum = (runA s xs).1.window.sum ∧
     (runA s xs).1.sum_sq = ((runA s xs).1.window.map fun x => x ^ 2).sum ∧
     ((runA s xs).1.window.length : ℤ)
        = min ((s.count : ℤ) + xs.length) s.window_size ∧
     (runA s xs).1.window_size = s.window_size) := by
  induction xs with
  | nil =>
    intro s h0 h1 h2 h3
    rw [runA_nil]
    exact ⟨h1, h2, by simpa using h3, rfl⟩
  | cons x xs ih =>
    intro s h0 h1 h2 h3
    rw [runA_cons]
    obtain ⟨q1, q2, q3, q4, q5⟩ := adaptive_detect_invariant s x h0 h1 h2 h3
    have h0' : 0 < (AdaptiveRollingAverageDetector.detect s x).1.window_size := by
      rw [q5]; exact h0
    have h3' : ((AdaptiveRollingAverageDetector.detect s x).1.window.length : ℤ)
        = min ((AdaptiveRollingAverageDetector.detect s x).1.count : ℤ)
            (AdaptiveRollingAverageDetector.detect s x).1.window_size := by
      rw [q3, q4, q5]
      push_cast
      ring_nf
    obtain ⟨r1, r2, r3, r4⟩ := ih _ h0' q1 q2 h3'
    refine ⟨r1, r2, ?_, by rw [r4, q5]⟩
    rw [r3, q4, q5]
    congr 1
    simp only [List.length_cons]
    push_cast
    ring

/-- Claim C9: for the Adaptive-Threshold Detector with window_size > 0 and
any input sequence, after every detect call the window length is at most
window_size, the window length equals window_size once at least
window_size values have been processed, and over exact arithmetic sum
equals the sum of the window contents and sum_sq the sum of their squares. -/
theorem claim_C9 (ws : ℤ) (t r : ℝ) (xs : List ℝ) (hws : 0 < ws) :
    (((runA (AdaptiveRollingAverageDetector.init ws t r) xs).1.window.length : ℤ) ≤ ws) ∧
    (ws ≤ (xs.length : ℤ) →
      ((runA (AdaptiveRollingAverageDetector.init ws t r) xs).1.window.length : ℤ) = ws) ∧
    (runA (AdaptiveRollingAverageDetector.init ws t r) xs).1.sum
      = (runA (AdaptiveRollingAverageDetector.init ws t r) xs).1.window.sum ∧
    (runA (AdaptiveRollingAverageDetector.init ws t r) xs).1.sum_sq
      = ((runA (AdaptiveRollingAverageDetector.init ws t r) xs).1.window.map
          fun x => x ^ 2).sum := by
  obtain ⟨r1, r2, r3, _⟩ := adaptive_run_invariant xs
    (AdaptiveRollingAverageDetector.init ws t r) (by simpa [AdaptiveRollingAverageDetector.init] using hws)
    (by simp [AdaptiveRollingAverageDetector.init])
    (by simp [AdaptiveRollingAverageDetector.init])
    (by simp [AdaptiveRollingAverageDetector.init]; omega)
  refine ⟨?_, ?_, r1, r2⟩
  · rw [show (AdaptiveRollingAverageDetector.init ws t r).window_size = ws from rfl] at r3
    rw [show ((AdaptiveRollingAverageDetector.init ws t r).count : ℤ) = 0 from rfl] at r3
    rw [r3]
    omega
  · intro hx
    rw [show (AdaptiveRollingAverageDetector.init ws t r).window_size = ws from rfl] at r3
    rw [show ((AdaptiveRollingAverageDetector.init ws t r).count : ℤ) = 0 from rfl] at r3
    rw [r3]
    omega

/-- Witness for claim C9 at window_size 1, inputs [2, 3]. -/
theorem claim_C9_witness :
    (0 : ℤ) < 1 ∧ (1 : ℤ) ≤ (([2, 3] : List ℝ).length : ℤ) ∧
    (((runA (AdaptiveRollingAverageDetector.init 1 (7/2) (1/20)) [(2 : ℝ), 3]).1.window.length : ℤ) ≤ 1) ∧
    ((1 : ℤ) ≤ (([(2 : ℝ), 3] : List ℝ).length : ℤ) →
      ((runA (AdaptiveRollingAverageDetector.init 1 (7/2) (1/20)) [(2 : ℝ), 3]).1.window.length : ℤ) = 1) ∧
    (runA (AdaptiveRollingAverageDetector.init 1 (7/2) (1/20)) [(2 : ℝ), 3]).1.sum
      = (runA (AdaptiveRollingAverageDetector.init 1 (7/2) (1/20)) [(2 : ℝ), 3]).1.window.sum ∧
    (runA (AdaptiveRollingAverageDetector.init 1 (7/2) (1/20)) [(2 : ℝ), 3]).1.sum_sq
      = ((runA (AdaptiveRollingAverageDetector.init 1 (7/2) (1/20)) [(2 : ℝ), 3]).1.window.map
          fun x => x ^ 2).sum := by
  obtain ⟨h1, h2, h3, h4⟩ := claim_C9 1 (7/2) (1/20) [(2 : ℝ), 3] (by norm_num)
  exact ⟨by norm_num, by norm_num, h1, h2, h3, h4⟩

/-- Counterexample to claim C8 as stated: construction does not fail fast
on any invalid configuration.  RollingAverageDetector accepts window_size
0 (capacity-zero construction is permitted), ZScoreDetector accepts a
negative window_size and a negative threshold, and the adaptive detector
accepts adaptation_rate 2 (outside [0,1]) and a negative threshold; each
constructor returns a plain state and no ConfigurationError exists in the
code. -/
theorem claim_C8_counterexample :
    RollingAverageDetector.init 0 (7/2)
      = { window_size := 0, threshold_std := 7/2, window := [], mean := 0, std := 0 } ∧
    ZScoreDetector.init (-3) (-1)
      = { window_size := -3, threshold := -1, window := [] } ∧
    AdaptiveRollingAverageDetector.init 0 (-1) 2
      = { window_size := 0, threshold := -1, adaptation_rate := 2, window := [],
          mean := 0, std := 0, sum := 0, sum_sq := 0, count := 0 } :=
  ⟨rfl, rfl, rfl⟩

/-- Claim C8 (amended): construction of every detector performs no
validation at all and always succeeds: any window_size (including 0 and
negative values), any adaptation_rate and any threshold are accepted
verbatim, and there is no ConfigurationError anywhere in the code.  A
capacity-zero detector is only broken later, at use: its first detect call
raises IndexError from window.pop(0) on the empty window (modelled as a
none result). -/
theorem claim_C8_amended (ws : ℤ) (t r v : ℝ) :
    RollingAverageDetector.init ws t
      = { window_size := ws, threshold_std := t, window := [], mean := 0, std := 0 } ∧
    ZScoreDetector.init ws t = { window_size := ws, threshold := t, window := [] } ∧
    AdaptiveRollingAverageDetector.init ws t r
      = { window_size := ws, threshold := t, adaptation_rate := r, window := [],
          mean := 0, std := 0, sum := 0, sum_sq := 0, count := 0 } ∧
    (RollingAverageDetector.detect (RollingAverageDetector.init 0 t) v).2 = none ∧
    (ZScoreDetector.detect (ZScoreDetector.init 0 t) v).2 = none ∧
    (AdaptiveRollingAverageDetector.detect
        (AdaptiveRollingAverageDetector.init 0 t r) v).2 = none := by
  refine ⟨rfl, rfl, rfl, ?_, ?_, ?_⟩
  · rw [RollingAverageDetector.detect,
      if_neg (by simp [RollingAverageDetector.init])]
    rfl
  · rw [ZScoreDetector.detect, if_neg (by simp [ZScoreDetector.init])]
    rfl
  · rw [AdaptiveRollingAverageDetector.detect,
      if_pos ⟨by simp [AdaptiveRollingAverageDetector.init], rfl⟩]

end AnomalyDetection
